import Mathlib

/-!
Verification of the terarchitect agent orchestration subsystem
(`backend/middle_agent/agent.py`, `backend/api/routes.py`) against its
natural-language specification.

The Python source is shallowly embedded: pure decision logic becomes Lean
functions; external effects (the Director LLM, the worker subprocess, git,
the database, the GitHub CLI) become oracle parameters or explicit outcome
values, so every function here is executable on concrete inputs.
-/

set_option autoImplicit false

/-- A chat message, mirroring the Python dicts with keys "role"/"content"
(`agent.py`, director_messages entries). -/
structure Message where
  role : String
  content : String
deriving Repr, DecidableEq

/-- `_DIRECTOR_COMPACT_CHUNK_SIZE = 4` (agent.py line 128): number of Director
messages summarized at once (2 user + 2 assistant = 2 full turns). -/
def directorCompactChunkSize : Nat := 4

/-- `_count_tokens_for_messages` (agent.py lines 131-142), fallback branch:
total characters of all contents, integer-divided by 4.  The tiktoken branch
is an optional external dependency; the spec requires the heuristic to be
supported, and it is the branch with defined arithmetic content. -/
def countTokensForMessages (messages : List Message) : Nat :=
  (messages.map (fun m => m.content.length)).sum / 4

/-- The summary message spliced in place of a compacted chunk
(agent.py line 1378): role "user", content is the fixed marker followed by
the summarizer output. -/
def mkSummaryMessage (summaryText : String) : Message :=
  { role := "user", content := "Previous conversation (summarized):\n\n" ++ summaryText }

/-- The loop body of `_compact_director_messages` (agent.py lines 1370-1379).
`summarize` is the oracle for `_summarize_director_messages` (an LLM call).
While `[system] ++ out ++ [new_user]` exceeds `tokenLimit` and at least one
chunk remains, the oldest chunk is replaced by a single summary message
spliced at the front. -/
def compactLoop (summarize : List Message → String)
    (systemMsg newUserMsg : Message) (tokenLimit : Nat)
    (out : List Message) : List Message :=
  if countTokensForMessages ([systemMsg] ++ out ++ [newUserMsg]) ≤ tokenLimit then
    out
  else if out.length < directorCompactChunkSize then
    out
  else
    let chunk := out.take directorCompactChunkSize
    let summaryMsg := mkSummaryMessage (summarize chunk)
    compactLoop summarize systemMsg newUserMsg tokenLimit
      (summaryMsg :: out.drop directorCompactChunkSize)
termination_by out.length
decreasing_by
  have hd : (out.drop directorCompactChunkSize).length = out.length - directorCompactChunkSize :=
    List.length_drop directorCompactChunkSize out
  simp only [List.length_cons]
  simp only [not_lt, directorCompactChunkSize] at *
  omega

/-- `_compact_director_messages` (agent.py lines 1359-1379): wraps the loop,
building the system and pending-user messages from the given contents. -/
def compactDirectorMessages (summarize : List Message → String)
    (directorMessages : List Message) (newUserContent systemContent : String)
    (tokenLimit : Nat) : List Message :=
  compactLoop summarize
    { role := "system", content := systemContent }
    { role := "user", content := newUserContent }
    tokenLimit directorMessages

/-- The message list sent to the Director API (agent.py line 1492):
`[system] + compacted + [new_user]`; the system prompt and the newest user
message are appended by the caller and are never part of the compacted list. -/
def messagesForApi (summarize : List Message → String)
    (directorMessages : List Message) (newUserContent systemContent : String)
    (tokenLimit : Nat) : List Message :=
  [{ role := "system", content := systemContent }]
    ++ compactDirectorMessages summarize directorMessages newUserContent systemContent tokenLimit
    ++ [{ role := "user", content := newUserContent }]

/-- Loop invariant of `_compact_director_messages`: the returned list is under
budget together with the fixed system and new-user messages, or fewer than one
chunk remains. -/
theorem compactLoop_bound (summarize : List Message → String)
    (systemMsg newUserMsg : Message) (tokenLimit : Nat) (out : List Message) :
    countTokensForMessages
        ([systemMsg] ++ compactLoop summarize systemMsg newUserMsg tokenLimit out ++ [newUserMsg])
        ≤ tokenLimit
      ∨ (compactLoop summarize systemMsg newUserMsg tokenLimit out).length
          < directorCompactChunkSize := by
  induction out using compactLoop.induct summarize systemMsg newUserMsg tokenLimit with
  | case1 out h => rw [compactLoop, if_pos h]; exact Or.inl h
  | case2 out h h2 => rw [compactLoop, if_neg h, if_pos h2]; exact Or.inr h2
  | case3 out h h2 chunk summaryMsg ih =>
      rw [compactLoop, if_neg h, if_neg h2]
      exact ih

/-- When the compaction loop runs exactly two iterations, the second chunk it
summarizes is `[summary1] ++ next 3 original messages` (the first summary is
spliced at the front of the list and so belongs to the next oldest chunk). -/
theorem compactLoop_two_steps
    (summarize : List Message → String) (systemMsg newUserMsg : Message)
    (tokenLimit : Nat) (out : List Message)
    (h1 : ¬ countTokensForMessages ([systemMsg] ++ out ++ [newUserMsg]) ≤ tokenLimit)
    (h2 : ¬ out.length < directorCompactChunkSize)
    (h3 : ¬ countTokensForMessages
        ([systemMsg] ++ (mkSummaryMessage (summarize (out.take directorCompactChunkSize))
            :: out.drop directorCompactChunkSize) ++ [newUserMsg]) ≤ tokenLimit)
    (h4 : ¬ (mkSummaryMessage (summarize (out.take directorCompactChunkSize))
            :: out.drop directorCompactChunkSize).length < directorCompactChunkSize)
    (h5 : countTokensForMessages
        ([systemMsg] ++ (mkSummaryMessage (summarize
              ((mkSummaryMessage (summarize (out.take directorCompactChunkSize))
                  :: out.drop directorCompactChunkSize).take directorCompactChunkSize))
            :: (mkSummaryMessage (summarize (out.take directorCompactChunkSize))
                  :: out.drop directorCompactChunkSize).drop directorCompactChunkSize)
          ++ [newUserMsg]) ≤ tokenLimit) :
    compactLoop summarize systemMsg newUserMsg tokenLimit out
      = mkSummaryMessage (summarize
            ((mkSummaryMessage (summarize (out.take directorCompactChunkSize))
                :: out.drop directorCompactChunkSize).take directorCompactChunkSize))
          :: (mkSummaryMessage (summarize (out.take directorCompactChunkSize))
                :: out.drop directorCompactChunkSize).drop directorCompactChunkSize := by
  rw [compactLoop, if_neg h1, if_neg h2]
  rw [compactLoop, if_neg h3, if_neg h4]
  rw [compactLoop, if_pos h5]

/-- C4: for every list of Director messages, system prompt, new user message
and token limit, `_compact_director_messages` returns a list whose token count
together with the system and new-user messages is at most the limit, or fewer
than one chunk (4 messages) remains; the system message stays first and the
new user message stays last in the message list sent to the API (they are
never removed).  Termination is witnessed by `compactLoop` being a total
function (its recursion decreases the list length by 3 per iteration). -/
theorem C4_compaction_bound (summarize : List Message → String)
    (directorMessages : List Message) (newUserContent systemContent : String)
    (tokenLimit : Nat) :
    (countTokensForMessages
        ([{ role := "system", content := systemContent }]
          ++ compactDirectorMessages summarize directorMessages newUserContent systemContent tokenLimit
          ++ [{ role := "user", content := newUserContent }]) ≤ tokenLimit
      ∨ (compactDirectorMessages summarize directorMessages newUserContent systemContent tokenLimit).length
          < directorCompactChunkSize)
    ∧ (messagesForApi summarize directorMessages newUserContent systemContent tokenLimit).head?
        = some { role := "system", content := systemContent }
    ∧ (messagesForApi summarize directorMessages newUserContent systemContent tokenLimit).getLast?
        = some { role := "user", content := newUserContent } := by
  refine ⟨compactLoop_bound summarize _ _ tokenLimit directorMessages, ?_, ?_⟩
  · simp [messagesForApi]
  · simp [messagesForApi, List.getLast?_eq_head?_reverse]

/-- The 10-turn (20-message) Director conversation of the C9 scenario:
each message content is 40 characters (10 tokens under the 4-chars-per-token
heuristic), alternating user/assistant roles. -/
def c9Messages : List Message :=
  (List.range 20).map
    (fun i => ⟨if i % 2 = 0 then "user" else "assistant",
               "aaaaaaaaaaaaaaaaaaaaaaaaaaaaaaaaaaaaaaaa"⟩)

/-- Summarizer oracle for the C9 scenario: the LLM returns an empty summary,
so every summary message is exactly the fixed marker text. -/
def c9Summarize : List Message → String := fun _ => ""

/-- A message produced by `_compact_director_messages` as a chunk summary:
its content begins with the fixed marker of agent.py line 1378. -/
def isSummaryMessage (m : Message) : Bool :=
  "Previous conversation (summarized):".toList.isPrefixOf m.content.toList

set_option maxRecDepth 10000 in
/-- C9 counterexample: on a 10-turn (20-message) conversation 60 tokens over a
140-token budget — the compactor runs exactly two iterations — the result
contains exactly ONE summary message and THIRTEEN original messages
(`[summary2] ++ originals 8..20`), not the two summary messages and twelve
originals (`[summary1, summary2] ++ originals 9..20`) the claim states:
the second chunk consumed summary1 itself plus only 3 more originals. -/
theorem C9_counterexample :
    ((compactDirectorMessages c9Summarize c9Messages "" "" 140).filter isSummaryMessage).length = 1
    ∧ ((compactDirectorMessages c9Summarize c9Messages "" "" 140).filter
          (fun m => !isSummaryMessage m)).length = 13 := by
  have h : compactDirectorMessages c9Summarize c9Messages "" "" 140
      = mkSummaryMessage "" :: c9Messages.drop 7 := by
    rw [compactDirectorMessages]
    rw [compactLoop_two_steps c9Summarize _ _ 140 c9Messages
      (by decide) (by decide) (by decide) (by decide) (by decide)]
    decide
  rw [h]
  exact ⟨by decide, by decide⟩

/-- C9 amended: when compaction runs exactly two iterations, the first
iteration replaces the oldest chunk (4 messages) with summary1, and the
second iteration replaces `[summary1] ++ the next 3 original messages` with
summary2, so the result is `[summary2] ++ remaining original messages` —
7 original messages removed and a single summary message at the front. -/
theorem C9_amended_two_chunk_compaction
    (summarize : List Message → String) (directorMessages : List Message)
    (newUserContent systemContent : String) (tokenLimit : Nat)
    (sys : Message) (usr : Message)
    (hs : sys = { role := "system", content := systemContent })
    (hu : usr = { role := "user", content := newUserContent })
    (h1 : ¬ countTokensForMessages ([sys] ++ directorMessages ++ [usr]) ≤ tokenLimit)
    (h2 : ¬ directorMessages.length < directorCompactChunkSize)
    (h3 : ¬ countTokensForMessages
        ([sys] ++ (mkSummaryMessage (summarize (directorMessages.take directorCompactChunkSize))
            :: directorMessages.drop directorCompactChunkSize) ++ [usr]) ≤ tokenLimit)
    (h4 : ¬ (mkSummaryMessage (summarize (directorMessages.take directorCompactChunkSize))
            :: directorMessages.drop directorCompactChunkSize).length < directorCompactChunkSize)
    (h5 : countTokensForMessages
        ([sys] ++ (mkSummaryMessage (summarize
              ((mkSummaryMessage (summarize (directorMessages.take directorCompactChunkSize))
                  :: directorMessages.drop directorCompactChunkSize).take directorCompactChunkSize))
            :: (mkSummaryMessage (summarize (directorMessages.take directorCompactChunkSize))
                  :: directorMessages.drop directorCompactChunkSize).drop directorCompactChunkSize)
          ++ [usr]) ≤ tokenLimit) :
    compactDirectorMessages summarize directorMessages newUserContent systemContent tokenLimit
      = mkSummaryMessage (summarize
            ((mkSummaryMessage (summarize (directorMessages.take directorCompactChunkSize))
                :: directorMessages.drop directorCompactChunkSize).take directorCompactChunkSize))
          :: (mkSummaryMessage (summarize (directorMessages.take directorCompactChunkSize))
                :: directorMessages.drop directorCompactChunkSize).drop directorCompactChunkSize := by
  subst hs hu
  exact compactLoop_two_steps summarize _ _ tokenLimit directorMessages h1 h2 h3 h4 h5

set_option maxRecDepth 10000 in
/-- Witness for the amended C9 theorem at the concrete scenario input. -/
theorem C9_amended_witness :
    compactDirectorMessages c9Summarize c9Messages "" "" 140
      = mkSummaryMessage "" :: c9Messages.drop 7 := by
  rw [C9_amended_two_chunk_compaction c9Summarize c9Messages "" "" 140 _ _ rfl rfl
    (by decide) (by decide) (by decide) (by decide) (by decide)]
  decide

/-- `needle in haystack` on character lists (Python substring containment). -/
def containsSub (needle : List Char) : List Char → Bool
  | [] => needle.isEmpty
  | c :: rest => needle.isPrefixOf (c :: rest) || containsSub needle rest

/-- Python `sub in s` for strings. -/
def pyContains (haystack needle : String) : Bool :=
  containsSub needle.toList haystack.toList

/-- Python `s.lower()` (ASCII case folding, the only case appearing in the
marker strings the code searches for). -/
def pyLower (s : String) : String :=
  String.mk (s.toList.map Char.toLower)

/-- Python `s.strip()`: remove leading and trailing whitespace. -/
def pyStrip (s : String) : String :=
  String.mk (((s.toList.dropWhile Char.isWhitespace).reverse.dropWhile Char.isWhitespace).reverse)

/-- Python `a or b` for strings: `a` if non-empty, else `b`. -/
def pyFirstNonempty (a b : String) : String :=
  if a ≠ "" then a else b

/-- Python `s[:n]`: the first `n` characters. -/
def pyTake (s : String) (n : Nat) : String :=
  String.mk (s.toList.take n)

/-- The `_agent_assess` result as the execution loop consumes it
(agent.py lines 488-516): `complete` is the Python truthiness of the
"complete" value, `summary` and `next_prompt` are strings (empty = falsy). -/
structure AssessResult where
  complete : Bool
  summary : String
  nextPrompt : String
deriving Repr, DecidableEq

/-- The dict returned by `_send_to_worker` (agent.py lines 1313-1317):
output text, stderr, and the subprocess return code. -/
structure WorkerResult where
  output : String
  error : String
  returnCode : Int
deriving Repr, DecidableEq

/-- The synthetic prompt substituted on execution turn 0 when the Director
reply is complete or has no next_prompt (agent.py lines 511-514). -/
def syntheticImplementPrompt : String :=
  "Implement the approved plan above. Start with the first step. Do not report complete until you have made the required code changes (tests and implementation)."

/-- The "work slowly" augmentation of execution prompts
(agent.py lines 517-519). -/
def augmentExecutionPrompt (nextPrompt : String) : String :=
  if pyContains (pyLower nextPrompt) "assess: is the ticket complete" then
    nextPrompt
  else if pyContains (pyLower nextPrompt) "one file at a time"
      || pyContains (pyLower nextPrompt) "slowly" then
    nextPrompt
  else
    "Work VERY slowly: modify one file at a time, verify each change before proceeding.\n\n"
      ++ nextPrompt

/-- How one `_run_execution_loop` call ends: the Director marked the ticket
complete; the cancel flag was observed at the top of an iteration (returns
None); `AgentAPIError` was raised because next_prompt was empty past turn 0
(line 516); or all `max_turns = 1000` iterations ran (falls off the loop,
returning None). -/
inductive ExecOutcome
  | completed (summary : String)
  | cancelled
  | noNextPromptError
  | turnsExhausted
deriving Repr, DecidableEq

/-- Observable result of the execution loop: how it ended, plus every prompt
sent to the worker during the loop, in order. -/
structure ExecResult where
  outcome : ExecOutcome
  workerPrompts : List String
deriving Repr, DecidableEq

/-- `max_turns = 1000` (agent.py line 447). -/
def maxExecutionTurns : Nat := 1000

/-- Body of `_run_execution_loop` (agent.py lines 448-550).  Oracles:
`cancel` is the `_active_sessions[...].get("cancel")` flag as polled at the
top of each turn; `assess` is `_agent_assess` (Director LLM, including memory
retrieval and compaction) as a function of the turn number and the two
histories; `worker` is `_send_to_worker` as a function of the turn number and
the prompt.  `fuel` counts the remaining iterations of `range(max_turns)`. -/
def runExecutionLoopAux (cancel : Nat → Bool)
    (assess : Nat → List String → List String → AssessResult)
    (worker : Nat → String → WorkerResult) :
    Nat → Nat → List String → List String → List String → ExecResult
  | 0, _, _, _, sentPrompts => { outcome := .turnsExhausted, workerPrompts := sentPrompts }
  | fuel + 1, turn, promptHistory, conversationHistory, sentPrompts =>
    if cancel turn then
      { outcome := .cancelled, workerPrompts := sentPrompts }
    else
      let resp := assess turn promptHistory conversationHistory
      let isFirstExecutionTurn := turn == 0
      if resp.complete && !isFirstExecutionTurn then
        { outcome := .completed resp.summary, workerPrompts := sentPrompts }
      else
        let nextPrompt :=
          if isFirstExecutionTurn && (resp.nextPrompt == "" || resp.complete) then
            syntheticImplementPrompt
          else resp.nextPrompt
        if nextPrompt == "" then
          { outcome := .noNextPromptError, workerPrompts := sentPrompts }
        else
          let nextPrompt := augmentExecutionPrompt nextPrompt
          let response := worker turn nextPrompt
          runExecutionLoopAux cancel assess worker fuel (turn + 1)
            (promptHistory ++ [nextPrompt])
            (conversationHistory ++ [response.output])
            (sentPrompts ++ [nextPrompt])

/-- `_run_execution_loop` from its initial state: turn 0, full fuel, history
carried over from the earlier phases, no worker prompt sent yet. -/
def runExecutionLoop (cancel : Nat → Bool)
    (assess : Nat → List String → List String → AssessResult)
    (worker : Nat → String → WorkerResult)
    (promptHistory conversationHistory : List String) : ExecResult :=
  runExecutionLoopAux cancel assess worker maxExecutionTurns 0
    promptHistory conversationHistory []

/-- The prompts already sent stay a prefix of the prompts reported by the
rest of the loop. -/
theorem runExecutionLoopAux_prompts_extend (cancel : Nat → Bool)
    (assess : Nat → List String → List String → AssessResult)
    (worker : Nat → String → WorkerResult) :
    ∀ (fuel turn : Nat) (ph ch sp : List String),
      sp <+: (runExecutionLoopAux cancel assess worker fuel turn ph ch sp).workerPrompts := by
  intro fuel
  induction fuel with
  | zero => intro turn ph ch sp; exact List.prefix_rfl
  | succ fuel ih =>
      intro turn ph ch sp
      rw [runExecutionLoopAux]
      by_cases hc : cancel turn
      · simp only [hc, if_pos]; exact List.prefix_rfl
      · simp only [hc, if_neg, Bool.false_eq_true, not_false_eq_true, ite_false]
        by_cases hdone : (assess turn ph ch).complete && !(turn == 0)
        · simp only [hdone, if_pos]; exact List.prefix_rfl
        · simp only [hdone, Bool.false_eq_true, not_false_eq_true, ite_false]
          by_cases hempty : (if (turn == 0) && ((assess turn ph ch).nextPrompt == ""
              || (assess turn ph ch).complete) then syntheticImplementPrompt
              else (assess turn ph ch).nextPrompt) == ""
          · simp only [hempty, if_pos]; exact List.prefix_rfl
          · simp only [hempty, Bool.false_eq_true, not_false_eq_true, ite_false]
            exact List.IsPrefix.trans (List.prefix_append sp _) (ih _ _ _ _)

/-- A singleton prefix determines the head of a list. -/
theorem head?_of_singleton_front {α : Type} {a : α} {l : List α}
    (h : [a] <+: l) : l.head? = some a := by
  obtain ⟨t, rfl⟩ := h
  rfl

/-- C2: on execution turn 0 a Director `complete=true` (or empty next_prompt)
never terminates the loop.  Part 1: whenever the loop ends with a completion
summary, at least one worker prompt was sent.  Part 2: if the turn-0 Director
reply is complete or has an empty next_prompt (and the session is not
cancelled), the first prompt actually sent to the worker is the synthetic
"Implement the approved plan above..." prompt (with the standard "work
slowly" augmentation). -/
theorem C2_no_completion_on_turn_zero :
    (∀ (cancel : Nat → Bool) (assess : Nat → List String → List String → AssessResult)
        (worker : Nat → String → WorkerResult) (ph ch : List String) (s : String),
        (runExecutionLoop cancel assess worker ph ch).outcome = ExecOutcome.completed s →
        (runExecutionLoop cancel assess worker ph ch).workerPrompts ≠ [])
    ∧ (∀ (cancel : Nat → Bool) (assess : Nat → List String → List String → AssessResult)
        (worker : Nat → String → WorkerResult) (ph ch : List String),
        cancel 0 = false →
        ((assess 0 ph ch).complete = true ∨ (assess 0 ph ch).nextPrompt = "") →
        (runExecutionLoop cancel assess worker ph ch).workerPrompts.head?
          = some (augmentExecutionPrompt syntheticImplementPrompt)) := by
  have haux : ∀ (cancel : Nat → Bool) (assess : Nat → List String → List String → AssessResult)
      (worker : Nat → String → WorkerResult) (ph ch : List String),
      cancel 0 = false →
      ((assess 0 ph ch).complete = true ∨ (assess 0 ph ch).nextPrompt = "") →
      (runExecutionLoop cancel assess worker ph ch).workerPrompts.head?
        = some (augmentExecutionPrompt syntheticImplementPrompt) := by
    intro cancel assess worker ph ch hcancel h0
    rw [runExecutionLoop, maxExecutionTurns,
      show (1000 : Nat) = 999 + 1 from rfl, runExecutionLoopAux]
    rw [if_neg (by simp [hcancel])]
    have hnotdone : ((assess 0 ph ch).complete && !(0 == 0)) = false := by simp
    rw [if_neg (by simp [hnotdone])]
    have hsub : (if (0 == 0) && ((assess 0 ph ch).nextPrompt == ""
        || (assess 0 ph ch).complete) then syntheticImplementPrompt
        else (assess 0 ph ch).nextPrompt) = syntheticImplementPrompt := by
      rcases h0 with h | h
      · simp [h]
      · simp [h]
    simp only [hsub]
    rw [if_neg (by decide)]
    exact head?_of_singleton_front
      (runExecutionLoopAux_prompts_extend cancel assess worker 999 1 _ _ _)
  constructor
  · intro cancel assess worker ph ch s hdone
    rw [runExecutionLoop, maxExecutionTurns,
      show (1000 : Nat) = 999 + 1 from rfl, runExecutionLoopAux] at hdone ⊢
    by_cases hcancel : cancel 0
    · rw [if_pos hcancel] at hdone
      exact absurd hdone (by simp)
    · rw [if_neg hcancel] at hdone ⊢
      have hnotdone : ((assess 0 ph ch).complete && !(0 == 0)) = false := by simp
      rw [if_neg (by simp [hnotdone])] at hdone ⊢
      by_cases hempty : ((if (0 == 0) && ((assess 0 ph ch).nextPrompt == ""
          || (assess 0 ph ch).complete) then syntheticImplementPrompt
          else (assess 0 ph ch).nextPrompt) == "") = true
      · rw [if_pos hempty] at hdone
        exact absurd hdone (by simp)
      · rw [if_neg (by simpa using hempty)] at hdone ⊢
        obtain ⟨t, hpre⟩ :=
          runExecutionLoopAux_prompts_extend cancel assess worker 999 1
            (ph ++ [augmentExecutionPrompt _]) _ ([] ++ [augmentExecutionPrompt _])
        rw [← hpre]
        simp
  · exact haux

set_option maxRecDepth 100000 in
/-- Witness for C2: Director answers complete=true on every turn; the loop
still sends one (synthetic, augmented) worker prompt before completing. -/
theorem C2_witness :
    (runExecutionLoop (fun _ => false) (fun _ _ _ => ⟨true, "done", ""⟩)
        (fun _ _ => ⟨"out", "", 0⟩) [] []).workerPrompts ≠ []
    ∧ (runExecutionLoop (fun _ => false) (fun _ _ _ => ⟨true, "done", ""⟩)
        (fun _ _ => ⟨"out", "", 0⟩) [] []).workerPrompts.head?
        = some (augmentExecutionPrompt syntheticImplementPrompt) :=
  ⟨C2_no_completion_on_turn_zero.1 _ _ _ [] [] "done" (by decide),
   C2_no_completion_on_turn_zero.2 _ _ _ [] [] rfl (Or.inl rfl)⟩

/-- Outcome of the `subprocess.run` call inside `_send_to_worker_opencode`
(agent.py lines 1293-1324): normal completion with stdout/stderr and an exit
code, a `subprocess.TimeoutExpired`, or a `FileNotFoundError` because the
worker executable is missing (which the function does not catch). -/
inductive WorkerProcessOutcome
  | finished (stdout stderr : String) (returnCode : Int)
  | timedOut
  | execNotFound
deriving Repr, DecidableEq

/-- The timeout message returned as non-fatal turn output
(agent.py line 1319). -/
def workerTimeoutOutputMsg (timeoutSec : Nat) : String :=
  "Worker run timed out after " ++ toString timeoutSec
    ++ " seconds. The run was killed before returning any output."

/-- `_send_to_worker_opencode`, result construction (agent.py lines
1293-1324).  `parseWorkerOutput` is `_parse_worker_output` (text extraction
from the event stream plus discovered session id).  A finished subprocess —
whatever its exit code — yields an ordinary result dict with
`output = parsed_text or stdout or stderr`; a timeout yields the fixed
timeout message with return code -1; a missing executable raises
`FileNotFoundError`, which propagates (modelled as `Except.error`). -/
def sendToWorkerOpencode (parseWorkerOutput : String → String × Option String)
    (timeoutSec : Nat) (outcome : WorkerProcessOutcome) : Except String WorkerResult :=
  match outcome with
  | .finished stdout stderr rc =>
      let out := pyStrip stdout
      let err := pyStrip stderr
      let parsedText := (parseWorkerOutput out).1
      Except.ok { output := pyFirstNonempty parsedText (pyFirstNonempty out err),
                  error := stderr, returnCode := rc }
  | .timedOut =>
      Except.ok { output := workerTimeoutOutputMsg timeoutSec,
                  error := "Timeout after 300 seconds", returnCode := -1 }
  | .execNotFound => Except.error "FileNotFoundError"

set_option maxRecDepth 100000 in
/-- C5 counterexample: a worker subprocess that exits with code 1 is NOT
reported as a WorkerUnavailable failure and the Session does not abort:
`_send_to_worker_opencode` returns an ordinary result dict (Except.ok) with
return_code = 1, and the execution loop treats it as a normal turn — here the
run goes on to a second Director assessment and completes successfully, so
the Job is not marked failed and Finalize (PR creation) is reached. -/
theorem C5_counterexample :
    sendToWorkerOpencode (fun s => (s, none)) 3600
        (WorkerProcessOutcome.finished "edited files" "" 1)
      = Except.ok { output := "edited files", error := "", returnCode := 1 }
    ∧ (runExecutionLoop (fun _ => false)
          (fun t _ _ => if t == 0 then ⟨false, "", "start step 1"⟩ else ⟨true, "done", ""⟩)
          (fun _ _ => { output := "edited files", error := "", returnCode := 1 })
          [] []).outcome = ExecOutcome.completed "done" := by
  exact ⟨by rfl, by decide⟩

/-- The execution loop reads only the `output` field of worker results: two
worker oracles that agree on outputs (but may differ on stderr and return
code) give identical loop results. -/
theorem runExecutionLoopAux_output_congr (cancel : Nat → Bool)
    (assess : Nat → List String → List String → AssessResult)
    (worker worker2 : Nat → String → WorkerResult)
    (hw : ∀ t p, (worker t p).output = (worker2 t p).output) :
    ∀ (fuel turn : Nat) (ph ch sp : List String),
      runExecutionLoopAux cancel assess worker fuel turn ph ch sp
        = runExecutionLoopAux cancel assess worker2 fuel turn ph ch sp := by
  intro fuel
  induction fuel with
  | zero => intro turn ph ch sp; rfl
  | succ fuel ih =>
      intro turn ph ch sp
      rw [runExecutionLoopAux]
      conv_rhs => rw [runExecutionLoopAux]
      by_cases hc : cancel turn
      · simp only [hc, if_pos]
      · simp only [hc, Bool.false_eq_true, not_false_eq_true, ite_false]
        by_cases hdone : (assess turn ph ch).complete && !(turn == 0)
        · simp only [hdone, if_pos]
        · simp only [hdone, Bool.false_eq_true, not_false_eq_true, ite_false]
          by_cases hempty : (if (turn == 0) && ((assess turn ph ch).nextPrompt == ""
              || (assess turn ph ch).complete) then syntheticImplementPrompt
              else (assess turn ph ch).nextPrompt) == ""
          · simp only [hempty, if_pos]
          · simp only [hempty, Bool.false_eq_true, not_false_eq_true, ite_false]
            rw [hw turn _]
            exact ih _ _ _ _

/-- C5 amended: a finished worker subprocess never aborts the Session,
whatever its exit code — `_send_to_worker_opencode` returns an ordinary
result dict recording the exit code, and the execution loop never inspects
`return_code` or `error` (its result depends only on worker `output`); only
a missing worker executable (`FileNotFoundError`) escapes as an exception
that aborts the Session. -/
theorem C5_amended_nonzero_exit_not_fatal :
    (∀ (parseWorkerOutput : String → String × Option String) (timeoutSec : Nat)
        (stdout stderr : String) (rc : Int),
        ∃ r, sendToWorkerOpencode parseWorkerOutput timeoutSec
              (WorkerProcessOutcome.finished stdout stderr rc) = Except.ok r
          ∧ r.returnCode = rc)
    ∧ (∀ (parseWorkerOutput : String → String × Option String) (timeoutSec : Nat),
        sendToWorkerOpencode parseWorkerOutput timeoutSec WorkerProcessOutcome.execNotFound
          = Except.error "FileNotFoundError")
    ∧ (∀ (cancel : Nat → Bool) (assess : Nat → List String → List String → AssessResult)
        (worker worker2 : Nat → String → WorkerResult) (ph ch : List String),
        (∀ t p, (worker t p).output = (worker2 t p).output) →
        runExecutionLoop cancel assess worker ph ch
          = runExecutionLoop cancel assess worker2 ph ch) := by
  refine ⟨?_, ?_, ?_⟩
  · intro parseWorkerOutput timeoutSec stdout stderr rc
    exact ⟨_, rfl, rfl⟩
  · intro parseWorkerOutput timeoutSec
    rfl
  · intro cancel assess worker worker2 ph ch hw
    exact runExecutionLoopAux_output_congr cancel assess worker worker2 hw _ _ _ _ _

/-- Witness for the amended C5 theorem at concrete inputs: exit code 1, and
two worker oracles differing only in return code. -/
theorem C5_amended_witness :
    (∃ r, sendToWorkerOpencode (fun s => (s, none)) 3600
          (WorkerProcessOutcome.finished "edited files" "boom" 1) = Except.ok r
        ∧ r.returnCode = 1)
    ∧ runExecutionLoop (fun _ => false) (fun _ _ _ => ⟨true, "done", ""⟩)
        (fun _ _ => { output := "out", error := "", returnCode := 0 }) [] []
      = runExecutionLoop (fun _ => false) (fun _ _ _ => ⟨true, "done", ""⟩)
        (fun _ _ => { output := "out", error := "err", returnCode := 1 }) [] [] :=
  ⟨C5_amended_nonzero_exit_not_fatal.1 (fun s => (s, none)) 3600 "edited files" "boom" 1,
   C5_amended_nonzero_exit_not_fatal.2.2 _ _ _ _ [] [] (fun _ _ => rfl)⟩

/-- The `_agent_assess` result in plan-review mode as the plan-review loop
consumes it (agent.py lines 777-801): `plan_approved` after the boolean
coercion of line 1591, plus the `approved_plan_text` and `next_prompt`
strings. -/
structure PlanAssessResult where
  planApproved : Bool
  approvedPlanText : String
  nextPrompt : String
deriving Repr, DecidableEq

/-- The worker prompt asking for the full plan text when the plan file is
missing or empty (agent.py lines 781-784). -/
def fullPlanRequestPrompt : String :=
  "The plan has been approved. Please output the complete plan text (full contents of your execution plan file or your execution plan) so it can be saved for the execution phase. Output only the plan, no preamble."

/-- Observable result of the plan-review phase: whether the cancel flag ended
it, the final `approved_plan_text`, how many Director assessments ran, which
feedback prompts were sent to the worker, and the histories as left for the
execution phase. -/
structure PlanReviewResult where
  cancelled : Bool
  approvedPlanText : String
  assessedTurns : Nat
  feedbackPrompts : List String
  promptHistory : List String
  conversationHistory : List String
deriving Repr, DecidableEq

/-- The plan-review phase of `process_ticket` (agent.py lines 741-833):
the `for plan_turn in range(max_plan_review_turns)` loop plus the post-loop
fallbacks.  Oracles: `cancel` is the cancel flag polled at the top of an
iteration, `assess` is `_agent_assess` in plan_review mode per iteration,
`readTaskPlan` is the contents returned by `_read_task_plan` ("" = missing or
empty), `workerFullPlan` is the worker output for the paste-the-plan request.

The loop body ends in an UNCONDITIONAL `break` (agent.py line 798): lines
799-821 — the branch that would send the Director feedback `next_prompt` to
the worker and iterate — are unreachable, so the body below is executed for
`plan_turn = 0` only and no second iteration ever occurs, whatever the
Director answers. -/
def planReviewPhase (cancel : Nat → Bool) (assess : Nat → PlanAssessResult)
    (readTaskPlan : String) (workerFullPlan : String)
    (promptHistory conversationHistory : List String) : PlanReviewResult :=
  if cancel 0 then
    { cancelled := true, approvedPlanText := "", assessedTurns := 0, feedbackPrompts := [],
      promptHistory := promptHistory, conversationHistory := conversationHistory }
  else
    let latestOutput := (conversationHistory.getLast?).getD ""
    let resp := assess 0
    let afterApproval :=
      if resp.planApproved then
        if readTaskPlan ≠ "" then (readTaskPlan, promptHistory, conversationHistory)
        else (pyStrip workerFullPlan, promptHistory ++ [fullPlanRequestPrompt],
              conversationHistory ++ [workerFullPlan])
      else ("", promptHistory, conversationHistory)
    let approved1 := afterApproval.1
    let ph2 := afterApproval.2.1
    let ch2 := afterApproval.2.2
    let approved2 :=
      if approved1 = "" then
        pyFirstNonempty (pyStrip resp.approvedPlanText) (pyTake latestOutput 8000)
      else approved1
    -- break (agent.py line 798); then the post-loop fallbacks (lines 823-827)
    let approved3 := if approved2 = "" then readTaskPlan else approved2
    let approved4 :=
      if approved3 = "" then pyTake ((ch2.getLast?).getD "") 8000 else approved3
    { cancelled := false, approvedPlanText := approved4, assessedTurns := 1,
      feedbackPrompts := [], promptHistory := ph2, conversationHistory := ch2 }

/-- C1 (code evaluated at the failing input): the Director does NOT approve
the plan and supplies feedback, yet the plan-review loop performs exactly one
assessment, sends no feedback prompt to the worker, and falls back to the
last worker output as the plan text — because of the unconditional `break`
at agent.py line 798 the revision turn of lines 799-821 is dead code and the
50-turn bound is never exercised. -/
theorem C1_plan_review_stops_after_first_assessment :
    planReviewPhase (fun _ => false)
        (fun _ => { planApproved := false, approvedPlanText := "",
                    nextPrompt := "Add tests for the parser module" })
        "" "" ["research prompt", "plan prompt"] ["research output", "draft plan text"]
      = { cancelled := false, approvedPlanText := "draft plan text", assessedTurns := 1,
          feedbackPrompts := [],
          promptHistory := ["research prompt", "plan prompt"],
          conversationHistory := ["research output", "draft plan text"] } := by
  decide

/-- Ticket status/column as stored in the tickets table. -/
structure TicketState where
  status : String
  columnId : String
deriving Repr, DecidableEq

/-- Environment of one `_finalize` call (agent.py lines 1776-1895):
whether `project_path` is a valid directory (line 1800); whether an exception
was raised inside the git/PR `try` block (caught and logged at lines
1878-1879, aborting the remaining git/PR steps); and the stdout of
`gh pr create` when it returned 0 with non-empty output (line 1870),
`none` when PR creation failed or was never reached. -/
structure FinalizeEnv where
  projectPathValid : Bool
  gitException : Bool
  prCreateResult : Option String
deriving Repr, DecidableEq

/-- Digits to a number, for the `/pull/(\d+)` extraction. -/
def digitsToNat (ds : List Char) : Nat :=
  ds.foldl (fun n c => n * 10 + (c.toNat - '0'.toNat)) 0

/-- `re.search(r"/pull/(\d+)", pr_url)` (agent.py line 1873): the first
occurrence of "/pull/" followed by at least one digit; the digit run is the
PR number. -/
def findPullNumber : List Char → Option Nat
  | [] => none
  | c :: rest =>
      if "/pull/".toList.isPrefixOf (c :: rest) then
        let ds := ((c :: rest).drop 6).takeWhile Char.isDigit
        if ds.isEmpty then findPullNumber rest else some (digitsToNat ds)
      else findPullNumber rest

/-- PR number extracted from a PR URL (agent.py lines 1872-1877). -/
def extractPrNumber (s : String) : Option Nat :=
  findPullNumber s.toList

/-- The `pr_url` value at the end of the `_finalize` try block: set only on
the non-review path, with a valid project path, no exception in the git/PR
block, and a successful `gh pr create` (agent.py lines 1798-1877). -/
def finalizePrUrl (reviewMode : Bool) (env : FinalizeEnv) : Option String :=
  if env.projectPathValid && !env.gitException && !reviewMode then
    env.prCreateResult.map pyStrip
  else none

/-- What `_finalize` persists: the ticket row and the PR row (if any). -/
structure FinalizeResult where
  ticket : TicketState
  prRowPersisted : Option (String × Option Nat)
deriving Repr, DecidableEq

/-- `_finalize`, database effects (agent.py lines 1880-1895): on the
non-review path the ticket is set to status "completed", column "in_review"
UNCONDITIONALLY, and a PR row is persisted only when `pr_url` is not None;
on the review path the ticket row is untouched. -/
def finalize (reviewMode : Bool) (env : FinalizeEnv) (t : TicketState) : FinalizeResult :=
  let prUrl := finalizePrUrl reviewMode env
  if reviewMode then
    { ticket := t, prRowPersisted := none }
  else
    { ticket := { status := "completed", columnId := "in_review" },
      prRowPersisted := prUrl.map (fun u => (u, extractPrNumber u)) }

/-- C6 counterexample: in Finalize for a first-time (non-review) ticket where
`gh pr create` failed (no PR was created), the ticket is still transitioned
to status "completed" / column "in_review" — the transition at agent.py lines
1880-1882 is unconditional, only the PR-row persistence is guarded. -/
theorem C6_counterexample :
    finalize false
        { projectPathValid := true, gitException := false, prCreateResult := none }
        { status := "in_progress", columnId := "in_progress" }
      = { ticket := { status := "completed", columnId := "in_review" },
          prRowPersisted := none } := by
  decide

/-- C6 amended: on the non-review path `_finalize` always sets the ticket to
status "completed" / column "in_review", whether or not a PR was created;
what is conditional on PR creation (valid path, no git exception, successful
`gh pr create`) is only the persistence of the PR row; the review path leaves
the ticket row unchanged. -/
theorem C6_amended_transition_unconditional (env : FinalizeEnv) (t : TicketState) :
    (finalize false env t).ticket = { status := "completed", columnId := "in_review" }
    ∧ ((finalize false env t).prRowPersisted.isSome
        ↔ (env.projectPathValid = true ∧ env.gitException = false
            ∧ env.prCreateResult.isSome = true))
    ∧ (finalize true env t).ticket = t := by
  refine ⟨rfl, ?_, rfl⟩
  simp only [finalize, finalizePrUrl]
  rcases env with ⟨pv, ge, pcr⟩
  cases pv <;> cases ge <;> cases pcr <;> simp

/-- Observable result of one normal-flow `process_ticket` run: whether
`_finalize` was reached, where a cancellation (if any) was observed, the
completion summary, and the persisted ticket/PR state. -/
structure SessionRunResult where
  finalizeRan : Bool
  cancelledAt : Option String
  completionSummary : Option String
  finalTicket : TicketState
  prRowPersisted : Option (String × Option Nat)
deriving Repr, DecidableEq

/-- The normal (non-setup, non-review) flow of `process_ticket`
(agent.py lines 607-864) with context loading and branch creation assumed
successful.  Cancellation polls in program order: before the first worker
turn (line 648), before planning (line 718), at the top of each plan-review
iteration (line 747, inside `planReviewPhase`), and at the top of each
execution iteration (line 450, inside `runExecutionLoop`).  The first three
return from `process_ticket` before `_finalize`; after the execution loop
`process_ticket` calls `_finalize` UNCONDITIONALLY (lines 855-862) — also
when the loop returned None because the cancel flag was observed — except
when the loop raised `AgentAPIError` (empty next_prompt past turn 0), which
propagates and skips `_finalize`. -/
def processTicketNormalFlow
    (cancelPreFirstTurn cancelPrePlanning : Bool)
    (planCancel : Nat → Bool) (planAssess : Nat → PlanAssessResult)
    (readTaskPlan workerFullPlan : String)
    (execCancel : Nat → Bool)
    (execAssess : Nat → List String → List String → AssessResult)
    (execWorker : Nat → String → WorkerResult)
    (researchPrompt researchOutput planPrompt planOutput : String)
    (env : FinalizeEnv) (t : TicketState) : SessionRunResult :=
  if cancelPreFirstTurn then
    { finalizeRan := false, cancelledAt := some "before_first_turn",
      completionSummary := none, finalTicket := t, prRowPersisted := none }
  else
    -- Research worker turn (lines 696-714)
    let ph := [researchPrompt]
    let ch := [researchOutput]
    if cancelPrePlanning then
      { finalizeRan := false, cancelledAt := some "planning",
        completionSummary := none, finalTicket := t, prRowPersisted := none }
    else
      -- Planning worker turn (lines 717-738)
      let ph := ph ++ [planPrompt]
      let ch := ch ++ [planOutput]
      let pr := planReviewPhase planCancel planAssess readTaskPlan workerFullPlan ph ch
      if pr.cancelled then
        { finalizeRan := false, cancelledAt := some "plan_review",
          completionSummary := none, finalTicket := t, prRowPersisted := none }
      else
        -- director_messages reset (line 836), execution loop (lines 839-853)
        let er := runExecutionLoop execCancel execAssess execWorker
          pr.promptHistory pr.conversationHistory
        if er.outcome = ExecOutcome.noNextPromptError then
          { finalizeRan := false, cancelledAt := none,
            completionSummary := none, finalTicket := t, prRowPersisted := none }
        else
          let fr := finalize false env t
          { finalizeRan := true,
            cancelledAt := if er.outcome = ExecOutcome.cancelled then some "execution" else none,
            completionSummary :=
              match er.outcome with
              | ExecOutcome.completed s => some s
              | _ => none,
            finalTicket := fr.ticket, prRowPersisted := fr.prRowPersisted }

set_option maxRecDepth 100000 in
/-- C3 counterexample: the cancel flag is observed at the top of execution
turn 0 (the plan had been approved), yet `process_ticket` still runs
`_finalize`: the ticket is moved to "completed"/"in_review" and a PR row is
persisted — commit/push/PR creation and a status change all happen after the
cancellation was observed, contradicting the claim. -/
theorem C3_counterexample :
    processTicketNormalFlow false false (fun _ => false)
        (fun _ => { planApproved := true, approvedPlanText := "", nextPrompt := "" })
        "the plan" ""
        (fun _ => true)
        (fun _ _ _ => { complete := false, summary := "", nextPrompt := "go" })
        (fun _ _ => { output := "", error := "", returnCode := 0 })
        "research prompt" "research output" "plan prompt" "plan output"
        { projectPathValid := true, gitException := false,
          prCreateResult := some "https://github.com/o/r/pull/7\n" }
        { status := "in_progress", columnId := "in_progress" }
      = { finalizeRan := true, cancelledAt := some "execution",
          completionSummary := none,
          finalTicket := { status := "completed", columnId := "in_review" },
          prRowPersisted := some ("https://github.com/o/r/pull/7", some 7) } := by
  decide

/-- C3 amended: cancellation observed before the first worker turn, before
planning, or at the top of a plan-review iteration exits `process_ticket`
without `_finalize`; but cancellation observed at the top of an
execution-loop iteration only ends the loop — `process_ticket` then still
runs `_finalize` (commit, push, PR creation, ticket moved to "in_review"). -/
theorem C3_amended_exec_cancel_still_finalizes
    (cancelPreFirstTurn cancelPrePlanning : Bool)
    (planCancel : Nat → Bool) (planAssess : Nat → PlanAssessResult)
    (readTaskPlan workerFullPlan : String)
    (execCancel : Nat → Bool)
    (execAssess : Nat → List String → List String → AssessResult)
    (execWorker : Nat → String → WorkerResult)
    (researchPrompt researchOutput planPrompt planOutput : String)
    (env : FinalizeEnv) (t : TicketState) :
    (cancelPreFirstTurn = true →
      (processTicketNormalFlow cancelPreFirstTurn cancelPrePlanning planCancel planAssess
        readTaskPlan workerFullPlan execCancel execAssess execWorker
        researchPrompt researchOutput planPrompt planOutput env t).finalizeRan = false)
    ∧ (cancelPreFirstTurn = false → cancelPrePlanning = true →
      (processTicketNormalFlow cancelPreFirstTurn cancelPrePlanning planCancel planAssess
        readTaskPlan workerFullPlan execCancel execAssess execWorker
        researchPrompt researchOutput planPrompt planOutput env t).finalizeRan = false)
    ∧ (cancelPreFirstTurn = false → cancelPrePlanning = false → planCancel 0 = true →
      (processTicketNormalFlow cancelPreFirstTurn cancelPrePlanning planCancel planAssess
        readTaskPlan workerFullPlan execCancel execAssess execWorker
        researchPrompt researchOutput planPrompt planOutput env t).finalizeRan = false)
    ∧ (cancelPreFirstTurn = false → cancelPrePlanning = false → planCancel 0 = false →
        execCancel 0 = true →
      (processTicketNormalFlow cancelPreFirstTurn cancelPrePlanning planCancel planAssess
        readTaskPlan workerFullPlan execCancel execAssess execWorker
        researchPrompt researchOutput planPrompt planOutput env t).finalizeRan = true
      ∧ (processTicketNormalFlow cancelPreFirstTurn cancelPrePlanning planCancel planAssess
        readTaskPlan workerFullPlan execCancel execAssess execWorker
        researchPrompt researchOutput planPrompt planOutput env t).cancelledAt
          = some "execution"
      ∧ (processTicketNormalFlow cancelPreFirstTurn cancelPrePlanning planCancel planAssess
        readTaskPlan workerFullPlan execCancel execAssess execWorker
        researchPrompt researchOutput planPrompt planOutput env t).finalTicket
          = { status := "completed", columnId := "in_review" }) := by
  refine ⟨?_, ?_, ?_, ?_⟩
  · intro h1
    simp [processTicketNormalFlow, h1]
  · intro h1 h2
    simp [processTicketNormalFlow, h1, h2]
  · intro h1 h2 h3
    simp [processTicketNormalFlow, h1, h2, planReviewPhase, h3]
  · intro h1 h2 h3 h4
    have hcancelled : (runExecutionLoop execCancel execAssess execWorker
        (planReviewPhase planCancel planAssess readTaskPlan workerFullPlan
          [researchPrompt, planPrompt] [researchOutput, planOutput]).promptHistory
        (planReviewPhase planCancel planAssess readTaskPlan workerFullPlan
          [researchPrompt, planPrompt] [researchOutput, planOutput]).conversationHistory).outcome
        = ExecOutcome.cancelled := by
      rw [runExecutionLoop, maxExecutionTurns,
        show (1000 : Nat) = 999 + 1 from rfl, runExecutionLoopAux, if_pos h4]
    have hnotcancelled : (planReviewPhase planCancel planAssess readTaskPlan workerFullPlan
        [researchPrompt, planPrompt] [researchOutput, planOutput]).cancelled = false := by
      rw [planReviewPhase, if_neg (by simp [h3])]
    simp only [processTicketNormalFlow, h1, h2, Bool.false_eq_true, if_false]
    simp only [List.singleton_append, List.cons_append, List.nil_append] at hcancelled ⊢
    rw [if_neg (by simp [hnotcancelled]), if_neg (by simp [hcancelled])]
    simp [hcancelled, finalize]

/-- Witness for the amended C3 theorem: concrete oracles where the cancel
flag first turns on at the top of execution turn 0. -/
theorem C3_amended_witness :
    (processTicketNormalFlow false false (fun _ => false)
        (fun _ => { planApproved := true, approvedPlanText := "", nextPrompt := "" })
        "the plan" "" (fun _ => true)
        (fun _ _ _ => { complete := false, summary := "", nextPrompt := "go" })
        (fun _ _ => { output := "", error := "", returnCode := 0 })
        "rp" "ro" "pp" "po"
        { projectPathValid := false, gitException := false, prCreateResult := none }
        { status := "in_progress", columnId := "in_progress" }).finalizeRan = true
    ∧ (processTicketNormalFlow false false (fun _ => false)
        (fun _ => { planApproved := true, approvedPlanText := "", nextPrompt := "" })
        "the plan" "" (fun _ => true)
        (fun _ _ _ => { complete := false, summary := "", nextPrompt := "go" })
        (fun _ _ => { output := "", error := "", returnCode := 0 })
        "rp" "ro" "pp" "po"
        { projectPathValid := false, gitException := false, prCreateResult := none }
        { status := "in_progress", columnId := "in_progress" }).cancelledAt = some "execution"
    ∧ (processTicketNormalFlow false false (fun _ => false)
        (fun _ => { planApproved := true, approvedPlanText := "", nextPrompt := "" })
        "the plan" "" (fun _ => true)
        (fun _ _ _ => { complete := false, summary := "", nextPrompt := "go" })
        (fun _ _ => { output := "", error := "", returnCode := 0 })
        "rp" "ro" "pp" "po"
        { projectPathValid := false, gitException := false, prCreateResult := none }
        { status := "in_progress", columnId := "in_progress" }).finalTicket
        = { status := "completed", columnId := "in_review" } :=
  (C3_amended_exec_cancel_still_finalizes false false (fun _ => false)
      (fun _ => { planApproved := true, approvedPlanText := "", nextPrompt := "" })
      "the plan" "" (fun _ => true)
      (fun _ _ _ => { complete := false, summary := "", nextPrompt := "go" })
      (fun _ _ => { output := "", error := "", returnCode := 0 })
      "rp" "ro" "pp" "po"
      { projectPathValid := false, gitException := false, prCreateResult := none }
      { status := "in_progress", columnId := "in_progress" }).2.2.2 rfl rfl rfl rfl

/-- JSON values as produced by `json.loads` (numbers collapsed to Int; the
claims never involve numeric content). -/
inductive Json where
  | null
  | bool (b : Bool)
  | num (n : Int)
  | str (s : String)
  | arr (xs : List Json)
  | obj (kvs : List (String × Json))

/-- Python `dict.get(key, default)` on a JSON object (key sets from
`json.loads` are duplicate-free, so first match is the binding). -/
def jsonGet (kvs : List (String × Json)) (key : String) (default : Json) : Json :=
  match kvs.find? (fun kv => kv.1 == key) with
  | some kv => kv.2
  | none => default

/-- Python truthiness of a JSON value. -/
def pyTruthy : Json → Bool
  | Json.null => false
  | Json.bool b => b
  | Json.num n => n != 0
  | Json.str s => s ≠ ""
  | Json.arr xs => !xs.isEmpty
  | Json.obj kvs => !kvs.isEmpty

/-- Python `s.find(sub)` scan: lowest index at which `sub` starts. -/
def listFindSubAux (needle : List Char) : List Char → Nat → Option Nat
  | [], i => if needle.isEmpty then some i else none
  | c :: rest, i =>
      if needle.isPrefixOf (c :: rest) then some i
      else listFindSubAux needle rest (i + 1)

/-- Python `s.find(sub)`: lowest index, or -1. -/
def pyFind (s sub : String) : Int :=
  match listFindSubAux sub.toList s.toList 0 with
  | some i => (i : Int)
  | none => -1

/-- Python `s.rfind(sub)`: highest index at which `sub` starts, or -1. -/
def pyRfind (s sub : String) : Int :=
  match ((List.range (s.toList.length + 1)).filter
      (fun i => sub.toList.isPrefixOf (s.toList.drop i))).getLast? with
  | some i => (i : Int)
  | none => -1

/-- Python `s.find(sub, start)` for `0 ≤ start`: lowest index ≥ start, or -1. -/
def pyFindFrom (s sub : String) (start : Int) : Int :=
  match listFindSubAux sub.toList (s.toList.drop start.toNat) 0 with
  | some i => start + (i : Int)
  | none => -1

/-- Python `s[a:b]` for the non-negative indices reachable in the fenced-JSON
extraction (all slice starts there are `find(...) + offset` under a guard that
the needle occurs, hence ≥ 0). -/
def pySliceInt (s : String) (a b : Int) : String :=
  String.mk ((s.toList.drop a.toNat).take (b - a).toNat)

/-- Python `s[a:]` for non-negative `a`. -/
def pySliceFrom (s : String) (a : Int) : String :=
  String.mk (s.toList.drop a.toNat)

/-- The parse-with-fallback of `_agent_assess` (agent.py lines 1546-1574):
strip the content, try `json.loads` on it bare; on failure, if a fence is
present, extract the fenced block (prefer the last-terminated ```json block,
else the first generic fence, skipping a leading "json" language tag) and try
again.  `loads` is the `json.loads` oracle (`none` = JSONDecodeError).
Returns the parse result. -/
def extractParsedJson (loads : String → Option Json) (content0 : String) : Option Json :=
  let content := pyStrip content0
  match loads content with
  | some p => some p
  | none =>
    if pyContains content "```" then
      let extract :=
        if pyContains content "```json" then
          let start := pyFind content "```json" + 7
          let e := pyRfind content "```"
          if e > start then pyStrip (pySliceInt content start e)
          else pyStrip (pySliceFrom content start)
        else
          let start0 := pyFind content "```" + 3
          let start :=
            if start0 < (content.length : Int)
                && pySliceInt content start0 (start0 + 4) == "json" then
              start0 + 4
            else start0
          let e := pyFindFrom content "```" start
          if e > 0 then pyStrip (pySliceInt content start e)
          else pyStrip (pySliceFrom content start)
      loads extract
    else none

/-- The `response_dict` built by `_agent_assess` (agent.py lines 1584-1592):
raw JSON values with defaults for "complete" / "summary" / "next_prompt", and
in plan-review mode the coerced `plan_approved` boolean
(`raw is True or (isinstance(raw, str) and raw.strip().lower() == "true")`)
plus `approved_plan_text` (`parsed.get(..., "") or ""`). -/
structure AssessResponseDict where
  complete : Json
  summary : Json
  nextPrompt : Json
  planApproved : Option Bool
  approvedPlanText : Option Json

/-- The construction of `response_dict` from a parsed JSON object. -/
def mkAssessResponse (isPlanReview : Bool) (kvs : List (String × Json)) :
    AssessResponseDict :=
  let base : AssessResponseDict :=
    { complete := jsonGet kvs "complete" (Json.bool false)
      summary := jsonGet kvs "summary" (Json.str "")
      nextPrompt := jsonGet kvs "next_prompt" (Json.str "")
      planApproved := none
      approvedPlanText := none }
  if isPlanReview then
    let rawApproved := jsonGet kvs "plan_approved" (Json.bool false)
    let approvedBool :=
      match rawApproved with
      | Json.bool true => true
      | Json.str s => pyLower (pyStrip s) == "true"
      | _ => false
    let apt := jsonGet kvs "approved_plan_text" (Json.str "")
    { base with
      planApproved := some approvedBool
      approvedPlanText := some (if pyTruthy apt then apt else Json.str "") }
  else base

/-- `_agent_assess` from raw response content to `response_dict` or
`AgentAPIError` (agent.py lines 1546-1595). -/
def agentAssessParse (loads : String → Option Json) (isPlanReview : Bool)
    (content0 : String) : Except String AssessResponseDict :=
  match extractParsedJson loads content0 with
  | none => Except.error "Agent API response is not valid JSON"
  | some (Json.obj kvs) => Except.ok (mkAssessResponse isPlanReview kvs)
  | some _ => Except.error "Agent API response must be a JSON object"

set_option maxRecDepth 10000 in
/-- C10: for every Director response whose content (bare, or extracted from a
fenced block) parses to a JSON object, `_agent_assess` builds a response dict
without raising, regardless of which keys are present: "complete" defaults to
False, "summary" and "next_prompt" default to "", and in plan-review mode
`plan_approved` is True exactly when the raw value is boolean True or a
string whose stripped, lowercased form is "true"; unparseable content or a
non-object raises AgentAPIError. -/
theorem C10_agent_assess_parsing
    (loads : String → Option Json) (isPlanReview : Bool) (content : String) :
    (∀ j, loads (pyStrip content) = some j → extractParsedJson loads content = some j)
    ∧ (∀ kvs, extractParsedJson loads content = some (Json.obj kvs) →
        agentAssessParse loads isPlanReview content
          = Except.ok (mkAssessResponse isPlanReview kvs))
    ∧ (∀ kvs, kvs.find? (fun kv => kv.1 == "complete") = none →
        (mkAssessResponse isPlanReview kvs).complete = Json.bool false)
    ∧ (∀ kvs, kvs.find? (fun kv => kv.1 == "summary") = none →
        (mkAssessResponse isPlanReview kvs).summary = Json.str "")
    ∧ (∀ kvs, kvs.find? (fun kv => kv.1 == "next_prompt") = none →
        (mkAssessResponse isPlanReview kvs).nextPrompt = Json.str "")
    ∧ (∀ kvs, (mkAssessResponse true kvs).planApproved = some true ↔
        (jsonGet kvs "plan_approved" (Json.bool false) = Json.bool true
          ∨ ∃ s, jsonGet kvs "plan_approved" (Json.bool false) = Json.str s
              ∧ pyLower (pyStrip s) = "true"))
    ∧ (extractParsedJson loads content = none →
        agentAssessParse loads isPlanReview content
          = Except.error "Agent API response is not valid JSON")
    ∧ (∀ j, extractParsedJson loads content = some j → (∀ kvs, j ≠ Json.obj kvs) →
        agentAssessParse loads isPlanReview content
          = Except.error "Agent API response must be a JSON object") := by
  refine ⟨?_, ?_, ?_, ?_, ?_, ?_, ?_, ?_⟩
  · intro j h
    simp [extractParsedJson, h]
  · intro kvs h
    simp [agentAssessParse, h]
  · intro kvs h
    cases isPlanReview <;> simp [mkAssessResponse, jsonGet, h]
  · intro kvs h
    cases isPlanReview <;> simp [mkAssessResponse, jsonGet, h]
  · intro kvs h
    cases isPlanReview <;> simp [mkAssessResponse, jsonGet, h]
  · intro kvs
    cases hj : jsonGet kvs "plan_approved" (Json.bool false) with
    | null => simp [mkAssessResponse, hj]
    | bool b => cases b <;> simp [mkAssessResponse, hj]
    | num n => simp [mkAssessResponse, hj]
    | str s => simp [mkAssessResponse, hj, beq_iff_eq]
    | arr xs => simp [mkAssessResponse, hj]
    | obj kvs2 => simp [mkAssessResponse, hj]
  · intro h
    simp [agentAssessParse, h]
  · intro j h hnotobj
    cases j with
    | obj kvs => exact absurd rfl (hnotobj kvs)
    | null => simp [agentAssessParse, h]
    | bool b => simp [agentAssessParse, h]
    | num n => simp [agentAssessParse, h]
    | str s => simp [agentAssessParse, h]
    | arr xs => simp [agentAssessParse, h]

/-- `json.loads` oracle for the C10 witness: parses the literal text of an
empty JSON object and nothing else. -/
def c10Loads : String → Option Json :=
  fun s => if s = "\x7b\x7d" then some (Json.obj []) else none

/-- Witness for C10: the empty JSON object parses bare; the response dict is
built without error and all three keys take their documented defaults, and
plan_approved coerces to false (no disjunct holds for the default value). -/
theorem C10_witness :
    agentAssessParse c10Loads true "\x7b\x7d" = Except.ok (mkAssessResponse true [])
    ∧ (mkAssessResponse true []).complete = Json.bool false
    ∧ (mkAssessResponse true []).summary = Json.str ""
    ∧ (mkAssessResponse true []).nextPrompt = Json.str "" :=
  ⟨(C10_agent_assess_parsing c10Loads true "\x7b\x7d").2.1 [] (by rfl),
   (C10_agent_assess_parsing c10Loads true "\x7b\x7d").2.2.1 [] rfl,
   (C10_agent_assess_parsing c10Loads true "\x7b\x7d").2.2.2.1 [] rfl,
   (C10_agent_assess_parsing c10Loads true "\x7b\x7d").2.2.2.2.1 [] rfl⟩

/-- A comment as fetched from the GitHub API during a poll cycle
(routes.py lines 1700-1712): id, body, author login, created/submitted
timestamp (timestamps as integers; only their order matters). -/
structure RawComment where
  commentId : Option Int
  body : String
  authorLogin : Option String
  createdAt : Option Int
deriving Repr, DecidableEq

/-- A `pr_review_comments` row for one (project, pr_number). -/
structure CommentRow where
  githubCommentId : Int
  authorLogin : Option String
  body : String
  commentCreatedAt : Option Int
  addressedAt : Option Nat
deriving Repr, DecidableEq

/-- Upsert of one fetched comment (routes.py lines 1702-1732): skipped when
the id is missing or the stripped body is empty; otherwise last-write-wins on
body/author/timestamp for an existing row, else a new unaddressed row. -/
def upsertComment (rows : List CommentRow) (c : RawComment) : List CommentRow :=
  match c.commentId with
  | none => rows
  | some cid =>
      let body := pyStrip c.body
      if body = "" then rows
      else if rows.any (fun r => r.githubCommentId == cid) then
        rows.map (fun r =>
          if r.githubCommentId == cid then
            { r with body := body, authorLogin := c.authorLogin,
                     commentCreatedAt := c.createdAt }
          else r)
      else
        rows ++ [{ githubCommentId := cid, authorLogin := c.authorLogin, body := body,
                   commentCreatedAt := c.createdAt, addressedAt := none }]

/-- Marking the agent's own unaddressed comments addressed
(routes.py lines 1740-1753); only done when the login is known. -/
def markOwnCommentsAddressed (ghLogin : String) (now : Nat)
    (rows : List CommentRow) : List CommentRow :=
  rows.map (fun r =>
    if r.authorLogin == some ghLogin && r.addressedAt == none then
      { r with addressedAt := some now }
    else r)

/-- Ordering for `order_by(nullslast(comment_created_at.desc()))`:
`a` strictly precedes `b` when its timestamp is more recent, nulls last. -/
def commentMoreRecent (a b : CommentRow) : Bool :=
  match a.commentCreatedAt, b.commentCreatedAt with
  | some x, some y => y < x
  | some _, none => true
  | none, _ => false

/-- `.limit(1).first()` under the nullslast-descending order: the most recent
row (first row in query order wins ties, as with a stable sort). -/
def selectMostRecentComment (rows : List CommentRow) : Option CommentRow :=
  rows.foldl (fun best r =>
    match best with
    | none => some r
    | some b => if commentMoreRecent r b then some r else some b) none

/-- The candidate filter of routes.py lines 1760-1767: unaddressed, non-empty
body, and (when the agent login is known) not authored by the agent. -/
def reviewCandidateFilter (ghLogin : Option String) (r : CommentRow) : Bool :=
  r.addressedAt == none && r.body != ""
    && (match ghLogin with
        | some l => r.authorLogin == none || r.authorLogin != some l
        | none => true)

/-- A review Job enqueued by the poller (routes.py lines 1769-1776). -/
structure ReviewTrigger where
  ticketId : Nat
  body : String
  prNumber : Int
  githubCommentId : Int
deriving Repr, DecidableEq

/-- Per-PR input of one poll cycle: PR state and the comments fetched from
the three endpoints (routes.py lines 1607-1699). -/
structure PrPollInput where
  ticketId : Nat
  prNumber : Int
  merged : Bool
  latestReviewApproved : Bool
  rawComments : List RawComment
deriving Repr, DecidableEq

/-- Processing of one PR in `_poll_pr_review_comments` (routes.py lines
1607-1776): merged → ticket done, skip; latest review approved → ticket done,
skip; else upsert comments, mark own comments addressed when the login is
known, and trigger a review job for the single most recent candidate ONLY
when both a candidate exists and the agent login was resolved
(`if next_comment and gh_login:` at line 1769). -/
def pollOnePr (ghLogin : Option String) (now : Nat) (pr : PrPollInput)
    (ticket : TicketState) (rows : List CommentRow) :
    TicketState × List CommentRow × Option ReviewTrigger :=
  if pr.merged then
    ({ status := "completed", columnId := "done" }, rows, none)
  else if pr.latestReviewApproved then
    ({ status := "completed", columnId := "done" }, rows, none)
  else
    let rows1 := pr.rawComments.foldl upsertComment rows
    let rows2 :=
      match ghLogin with
      | some l => markOwnCommentsAddressed l now rows1
      | none => rows1
    let nextComment := selectMostRecentComment
      (rows2.filter (reviewCandidateFilter ghLogin))
    let trigger :=
      match nextComment, ghLogin with
      | some c, some _ =>
          some { ticketId := pr.ticketId, body := c.body, prNumber := pr.prNumber,
                 githubCommentId := c.githubCommentId }
      | _, _ => none
    ({ ticket with }, rows2, trigger)

/-- One full poll cycle over all PRs in review: the agent login is resolved
ONCE per cycle (routes.py line 1594) and shared by every PR; the cycle
returns every triggered review job. -/
def pollCycleTriggers (ghLogin : Option String) (now : Nat)
    (prs : List (PrPollInput × TicketState × List CommentRow)) : List ReviewTrigger :=
  prs.foldr (fun x acc =>
    match (pollOnePr ghLogin now x.1 x.2.1 x.2.2).2.2 with
    | some tr => tr :: acc
    | none => acc) []

/-- C7: when the agent GitHub login cannot be resolved for a poll cycle, zero
review jobs are enqueued for every PR processed in that cycle — each
individual PR yields no trigger (comments are still upserted into the rows),
and the whole cycle yields an empty trigger list. -/
theorem C7_no_login_no_review_jobs (now : Nat) :
    (∀ (pr : PrPollInput) (ticket : TicketState) (rows : List CommentRow),
        (pollOnePr none now pr ticket rows).2.2 = none
        ∧ (pr.merged = false → pr.latestReviewApproved = false →
            (pollOnePr none now pr ticket rows).2.1
              = pr.rawComments.foldl upsertComment rows))
    ∧ (∀ prs, pollCycleTriggers none now prs = []) := by
  have hone : ∀ (pr : PrPollInput) (ticket : TicketState) (rows : List CommentRow),
      (pollOnePr none now pr ticket rows).2.2 = none := by
    intro pr ticket rows
    rw [pollOnePr]
    by_cases hm : pr.merged
    · simp [hm]
    · by_cases ha : pr.latestReviewApproved
      · simp [hm, ha]
      · simp only [hm, ha, Bool.false_eq_true, if_false]
        cases selectMostRecentComment
          (((pr.rawComments.foldl upsertComment rows).filter
            (reviewCandidateFilter none))) <;> rfl
  refine ⟨?_, ?_⟩
  · intro pr ticket rows
    refine ⟨hone pr ticket rows, ?_⟩
    intro hm ha
    rw [pollOnePr]
    simp only [hm, ha, Bool.false_eq_true, if_false]
  · intro prs
    induction prs with
    | nil => rfl
    | cons x rest ih =>
        rw [pollCycleTriggers] at ih ⊢
        simp only [List.foldr_cons, hone x.1 x.2.1 x.2.2]
        exact ih

/-- Witness for C7 at a concrete poll cycle: one open PR with one fresh
reviewer comment, login unresolved — no trigger, comment still upserted. -/
theorem C7_witness :
    (pollOnePr none 5
        { ticketId := 1, prNumber := 7, merged := false, latestReviewApproved := false,
          rawComments := [{ commentId := some 11, body := " fix this ",
                            authorLogin := some "alice", createdAt := some 3 }] }
        { status := "completed", columnId := "in_review" } []).2.2 = none
    ∧ (pollOnePr none 5
        { ticketId := 1, prNumber := 7, merged := false, latestReviewApproved := false,
          rawComments := [{ commentId := some 11, body := " fix this ",
                            authorLogin := some "alice", createdAt := some 3 }] }
        { status := "completed", columnId := "in_review" } []).2.1
        = [{ githubCommentId := 11, authorLogin := some "alice", body := "fix this",
             commentCreatedAt := some 3, addressedAt := none }]
    ∧ pollCycleTriggers none 5
        [({ ticketId := 1, prNumber := 7, merged := false, latestReviewApproved := false,
            rawComments := [{ commentId := some 11, body := " fix this ",
                              authorLogin := some "alice", createdAt := some 3 }] },
          { status := "completed", columnId := "in_review" }, [])] = [] := by
  refine ⟨((C7_no_login_no_review_jobs 5).1 _ _ _).1, ?_, (C7_no_login_no_review_jobs 5).2 _⟩
  rw [((C7_no_login_no_review_jobs 5).1 _ _ []).2 rfl rfl]
  decide

/-- A job put on the in-process agent queue (routes.py lines 553 and 1552):
a ticket job carries the ticket id; a review job carries
(ticket_id, comment_body, pr_number, project_id, github_comment_id). -/
inductive AgentJob where
  | ticketJob (ticketId : Nat)
  | reviewJob (ticketId : Nat) (commentBody : String) (prNumber : Nat)
      (projectId : Nat) (githubCommentId : Int)
deriving Repr, DecidableEq

/-- `_agent_job_key` (routes.py lines 66-73): "ticket:id" for ticket jobs,
"review:ticket_id:pr_number" for review jobs. -/
def agentJobKey : AgentJob → String
  | AgentJob.ticketJob tid => "ticket:" ++ toString tid
  | AgentJob.reviewJob tid _ pr _ _ => "review:" ++ toString tid ++ ":" ++ toString pr

/-- The shared queueing state: `_agent_queue_keys` (keys of queued or
in-progress jobs), the FIFO `_agent_queue`, and the jobs currently being run
by `_run_one_agent_job` (between `get_nowait` and the `finally` discard). -/
structure AgentQueueState where
  keys : List String
  queued : List AgentJob
  running : List AgentJob
deriving Repr, DecidableEq

/-- All jobs that are queued or in progress. -/
def jobsOf (st : AgentQueueState) : List AgentJob :=
  st.queued ++ st.running

/-- `_trigger_middle_agent` / `_trigger_review_agent` (routes.py lines
542-553 and 1541-1552): under the queue lock, skip when the key is already
present, else record the key and enqueue the job. -/
def triggerAgentJob (st : AgentQueueState) (j : AgentJob) : AgentQueueState :=
  if agentJobKey j ∈ st.keys then st
  else { st with keys := agentJobKey j :: st.keys, queued := st.queued ++ [j] }

/-- `_run_agent_and_poll_loop` taking a job off the queue
(routes.py line 608) and handing it to `_run_one_agent_job`. -/
def dequeueAgentJob (st : AgentQueueState) : AgentQueueState :=
  match st.queued with
  | [] => st
  | j :: rest => { st with queued := rest, running := st.running ++ [j] }

/-- The `finally` of `_run_one_agent_job` (routes.py lines 584-587): when the
job finishes — success or failure — its key is discarded from the key set. -/
def finishAgentJob (st : AgentQueueState) (j : AgentJob) : AgentQueueState :=
  { st with running := st.running.erase j, keys := st.keys.erase (agentJobKey j) }

/-- One step of the queueing protocol. -/
inductive AgentQueueStep : AgentQueueState → AgentQueueState → Prop
  | triggerStep (st : AgentQueueState) (j : AgentJob) :
      AgentQueueStep st (triggerAgentJob st j)
  | dequeueStep (st : AgentQueueState) :
      AgentQueueStep st (dequeueAgentJob st)
  | finishStep (st : AgentQueueState) (j : AgentJob) (h : j ∈ st.running) :
      AgentQueueStep st (finishAgentJob st j)

/-- States reachable from the initial empty state (module load:
`_agent_queue_keys = set()`, empty queue, nothing running). -/
inductive AgentQueueReachable : AgentQueueState → Prop
  | init : AgentQueueReachable { keys := [], queued := [], running := [] }
  | step {s t : AgentQueueState} :
      AgentQueueReachable s → AgentQueueStep s t → AgentQueueReachable t

/-- The queueing invariant: keys of queued-or-running jobs are pairwise
distinct, every such key is recorded in the key set, and the key set has no
duplicates. -/
def AgentQueueInv (st : AgentQueueState) : Prop :=
  ((jobsOf st).map agentJobKey).Nodup
    ∧ (∀ j ∈ jobsOf st, agentJobKey j ∈ st.keys)
    ∧ st.keys.Nodup

theorem agentQueueInv_init :
    AgentQueueInv { keys := [], queued := [], running := [] } := by
  refine ⟨List.nodup_nil, ?_, List.nodup_nil⟩
  intro j hj
  simp [jobsOf] at hj

theorem agentQueueInv_trigger (st : AgentQueueState) (j : AgentJob)
    (h : AgentQueueInv st) : AgentQueueInv (triggerAgentJob st j) := by
  obtain ⟨hnd, hmem, hknd⟩ := h
  rw [triggerAgentJob]
  by_cases hk : agentJobKey j ∈ st.keys
  · rw [if_pos hk]; exact ⟨hnd, hmem, hknd⟩
  · rw [if_neg hk]
    have hperm : List.Perm
        (jobsOf { st with keys := agentJobKey j :: st.keys, queued := st.queued ++ [j] })
        (j :: jobsOf st) := by
      simp only [jobsOf]
      rw [List.append_assoc, List.singleton_append]
      exact List.perm_middle
    refine ⟨?_, ?_, ?_⟩
    · refine ((hperm.map agentJobKey).nodup_iff).mpr ?_
      refine List.nodup_cons.mpr ⟨?_, hnd⟩
      intro hin
      obtain ⟨j2, hj2, hkey⟩ := List.mem_map.mp hin
      exact hk (hkey ▸ hmem j2 hj2)
    · intro j2 hj2
      rcases List.mem_cons.mp ((hperm.mem_iff).mp hj2) with h1 | h1
      · subst h1; exact List.mem_cons_self _ _
      · exact List.mem_cons_of_mem _ (hmem j2 h1)
    · exact List.nodup_cons.mpr ⟨hk, hknd⟩

theorem agentQueueInv_dequeue (st : AgentQueueState)
    (h : AgentQueueInv st) : AgentQueueInv (dequeueAgentJob st) := by
  obtain ⟨hnd, hmem, hknd⟩ := h
  rw [dequeueAgentJob]
  cases hq : st.queued with
  | nil => exact ⟨hnd, hmem, hknd⟩
  | cons j rest =>
      have hperm : List.Perm
          (jobsOf { st with queued := rest, running := st.running ++ [j] })
          (jobsOf st) := by
        simp only [jobsOf, hq]
        refine List.Perm.trans (List.Perm.append_left rest List.perm_append_comm) ?_
        rw [List.singleton_append]
        refine List.Perm.trans List.perm_middle ?_
        rw [List.cons_append]
      refine ⟨((hperm.map agentJobKey).nodup_iff).mpr hnd, ?_, hknd⟩
      intro j2 hj2
      exact hmem j2 ((hperm.mem_iff).mp hj2)

theorem agentQueueInv_finish (st : AgentQueueState) (j : AgentJob)
    (hr : j ∈ st.running) (h : AgentQueueInv st) :
    AgentQueueInv (finishAgentJob st j) := by
  obtain ⟨hnd, hmem, hknd⟩ := h
  have hrperm : List.Perm st.running (j :: st.running.erase j) :=
    List.perm_cons_erase hr
  have hperm : List.Perm (jobsOf st) (j :: jobsOf (finishAgentJob st j)) := by
    simp only [jobsOf, finishAgentJob]
    exact List.Perm.trans (List.Perm.append_left st.queued hrperm) List.perm_middle
  have hnd2 : (agentJobKey j :: (jobsOf (finishAgentJob st j)).map agentJobKey).Nodup := by
    have := ((hperm.map agentJobKey).nodup_iff).mp hnd
    simpa using this
  have hkeyfresh : agentJobKey j ∉ (jobsOf (finishAgentJob st j)).map agentJobKey :=
    (List.nodup_cons.mp hnd2).1
  refine ⟨(List.nodup_cons.mp hnd2).2, ?_, hknd.erase _⟩
  intro j2 hj2
  have hj2mem : j2 ∈ jobsOf st := (hperm.mem_iff).mpr (List.mem_cons_of_mem _ hj2)
  have hne : agentJobKey j2 ≠ agentJobKey j := by
    intro heq
    exact hkeyfresh (heq ▸ List.mem_map_of_mem agentJobKey hj2)
  have : agentJobKey j2 ∈ st.keys := hmem j2 hj2mem
  exact List.mem_erase_of_ne hne |>.mpr this

/-- Every reachable queueing state satisfies the invariant. -/
theorem agentQueueInv_reachable (st : AgentQueueState)
    (h : AgentQueueReachable st) : AgentQueueInv st := by
  induction h with
  | init => exact agentQueueInv_init
  | step hr hs ih =>
      cases hs with
      | triggerStep j => exact agentQueueInv_trigger _ j ih
      | dequeueStep => exact agentQueueInv_dequeue _ ih
      | finishStep j hj => exact agentQueueInv_finish _ j hj ih

/-- C8: in every reachable queueing state, at most one job per key is queued
or in progress (ticket jobs are keyed "ticket:id", review jobs
"review:ticket:pr"); enqueueing a job whose key is already held is a no-op;
a queued or running job always holds its key; and finishing a running job —
success or failure — releases exactly its key. -/
theorem C8_job_uniqueness (st : AgentQueueState)
    (h : AgentQueueReachable st) :
    ((jobsOf st).map agentJobKey).Nodup
    ∧ (∀ j', agentJobKey j' ∈ st.keys → triggerAgentJob st j' = st)
    ∧ (∀ j ∈ jobsOf st, agentJobKey j ∈ st.keys)
    ∧ (∀ j ∈ st.running, agentJobKey j ∉ (finishAgentJob st j).keys
        ∧ ∀ k, k ≠ agentJobKey j → (k ∈ (finishAgentJob st j).keys ↔ k ∈ st.keys)) := by
  obtain ⟨hnd, hmem, hknd⟩ := agentQueueInv_reachable st h
  refine ⟨hnd, ?_, hmem, ?_⟩
  · intro j' hk
    rw [triggerAgentJob, if_pos hk]
  · intro j hj
    constructor
    · rw [finishAgentJob]
      intro habs
      exact ((hknd.mem_erase_iff).mp habs).1 rfl
    · intro k hk
      rw [finishAgentJob]
      constructor
      · intro hin
        exact ((hknd.mem_erase_iff).mp hin).2
      · intro hin
        exact (hknd.mem_erase_iff).mpr ⟨hk, hin⟩

/-- Witness for C8: starting from the empty state, enqueue the job for
ticket 1; the duplicate enqueue is a no-op and the job key is unique. -/
theorem C8_witness :
    triggerAgentJob
        (triggerAgentJob { keys := [], queued := [], running := [] }
          (AgentJob.ticketJob 1))
        (AgentJob.ticketJob 1)
      = triggerAgentJob { keys := [], queued := [], running := [] }
          (AgentJob.ticketJob 1)
    ∧ ((jobsOf (triggerAgentJob { keys := [], queued := [], running := [] }
          (AgentJob.ticketJob 1))).map agentJobKey).Nodup := by
  have hreach : AgentQueueReachable
      (triggerAgentJob { keys := [], queued := [], running := [] }
        (AgentJob.ticketJob 1)) :=
    AgentQueueReachable.step AgentQueueReachable.init
      (AgentQueueStep.triggerStep _ (AgentJob.ticketJob 1))
  have h := C8_job_uniqueness _ hreach
  refine ⟨h.2.1 (AgentJob.ticketJob 1) ?_, h.1⟩
  show agentJobKey (AgentJob.ticketJob 1)
      ∈ (triggerAgentJob { keys := [], queued := [], running := [] }
          (AgentJob.ticketJob 1)).keys
  rw [triggerAgentJob, if_neg (by simp)]
  exact List.mem_cons_self _ _
